import Mathlib

/-!
Shallow embedding of the workflow orchestration core of the CEPROC
"Mapeador Inteligente" front end (`App` component): the session record
accumulated across pipeline stages, the spread-merge update, the per-stage
handlers (split into their synchronous prefix before the `await` and the
continuation applied when the fetch resolves), the reset handler, and the
progress-step projection.  JavaScript `undefined`/`null` values are
modelled with `Option`; the JS `x || default` truthiness fallback (which
treats the empty string as falsy) is modelled by `jsOr`.
-/

namespace Ceproc

/-- Session data accumulated across modules, mirroring the `sessionData`
React state.  The two `bpmn_validation` fields start as `null` and
`aviso_bizagi` may be overwritten with `undefined` by a merge, so those
three are `Option String` (with `none` for JS `null`/`undefined`). -/
structure SessionData where
  relatorio_descoberta : String
  bpmn_xml_as_is : String
  bpmn_validation_as_is : Option String
  consultoria : String
  propostas_aprovadas : String
  bpmn_xml_to_be : String
  bpmn_validation_to_be : Option String
  pop_texto : String
  aviso_bizagi : Option String
  deriving Repr, DecidableEq

/-- The initial value passed to `useState` for `sessionData`: all text
fields are the empty string, both validation fields are `null`, and
`aviso_bizagi` is the empty string (a present string, not `undefined`). -/
def initialSessionData : SessionData :=
  { relatorio_descoberta := ""
    bpmn_xml_as_is := ""
    bpmn_validation_as_is := none
    consultoria := ""
    propostas_aprovadas := ""
    bpmn_xml_to_be := ""
    bpmn_validation_to_be := none
    pop_texto := ""
    aviso_bizagi := some "" }

/-- A partial update object passed to `updateSession`.  The outer `Option`
on each field records whether the update object carries that key at all
(a key present with value `undefined` is still present, which matters for
`aviso_bizagi`: `{ aviso_bizagi: json.aviso_bizagi }` has the key even
when `json.aviso_bizagi` is `undefined`). -/
structure SessionUpdate where
  relatorio_descoberta : Option String
  bpmn_xml_as_is : Option String
  bpmn_validation_as_is : Option (Option String)
  consultoria : Option String
  propostas_aprovadas : Option String
  bpmn_xml_to_be : Option String
  bpmn_validation_to_be : Option (Option String)
  pop_texto : Option String
  aviso_bizagi : Option (Option String)
  deriving Repr, DecidableEq

/-- The update object with no keys, from which the handlers build their
concrete update literals. -/
def SessionUpdate.empty : SessionUpdate :=
  { relatorio_descoberta := none
    bpmn_xml_as_is := none
    bpmn_validation_as_is := none
    consultoria := none
    propostas_aprovadas := none
    bpmn_xml_to_be := none
    bpmn_validation_to_be := none
    pop_texto := none
    aviso_bizagi := none }

/-- The `updateSession` helper: `setSessionData(prev => ({ ...prev,
...updates }))`.  A JS object spread overwrites exactly the keys present
in `updates` (even when the carried value is `undefined`) and keeps every
other key of `prev` unchanged. -/
def updateSession (prev : SessionData) (updates : SessionUpdate) : SessionData :=
  { relatorio_descoberta := updates.relatorio_descoberta.getD prev.relatorio_descoberta
    bpmn_xml_as_is := updates.bpmn_xml_as_is.getD prev.bpmn_xml_as_is
    bpmn_validation_as_is := updates.bpmn_validation_as_is.getD prev.bpmn_validation_as_is
    consultoria := updates.consultoria.getD prev.consultoria
    propostas_aprovadas := updates.propostas_aprovadas.getD prev.propostas_aprovadas
    bpmn_xml_to_be := updates.bpmn_xml_to_be.getD prev.bpmn_xml_to_be
    bpmn_validation_to_be := updates.bpmn_validation_to_be.getD prev.bpmn_validation_to_be
    pop_texto := updates.pop_texto.getD prev.pop_texto
    aviso_bizagi := updates.aviso_bizagi.getD prev.aviso_bizagi }

/-- The `view` React state, one constructor per string value the source
assigns to it. -/
inductive View where
  | upload
  | modulo1
  | review1
  | modulo2
  | review2
  | modulo3a
  | review3a
  | modulo3b
  | review3b
  | modulo4
  | final
  | error
  deriving Repr, DecidableEq

/-- The string each `View` constructor stands for in the source. -/
def View.str : View → String
  | .upload => "upload"
  | .modulo1 => "modulo1"
  | .review1 => "review1"
  | .modulo2 => "modulo2"
  | .review2 => "review2"
  | .modulo3a => "modulo3a"
  | .review3a => "review3a"
  | .modulo3b => "modulo3b"
  | .review3b => "review3b"
  | .modulo4 => "modulo4"
  | .final => "final"
  | .error => "error"

/-- The full component state relevant to orchestration: the `view`,
`error` and `sessionData` React state variables. -/
structure AppState where
  view : View
  error : String
  sessionData : SessionData
  deriving Repr, DecidableEq

/-- The state on first render: `view = upload`, `error` empty, and the
initial session data. -/
def initialAppState : AppState :=
  { view := View.upload
    error := ""
    sessionData := initialSessionData }

/-- Outcome of one `fetch` to a stage endpoint, as the handlers observe
it: `ok` with the parsed success JSON, `httpError` when `res.ok` is false
(carrying the optional `detail` field of the error JSON), or
`networkError` when the fetch itself (or the body parse) throws, carrying
that exception message. -/
inductive StageResult (α : Type) where
  | ok (json : α)
  | httpError (detail : Option String)
  | networkError (message : String)
  deriving Repr, DecidableEq

/-- The JS expression `err.detail || fallback`: the fallback is used when
`detail` is absent or falsy (the empty string is falsy). -/
def jsOr (detail : Option String) (fallback : String) : String :=
  match detail with
  | none => fallback
  | some d => if d = "" then fallback else d

/-- Success JSON of stage 1 (audio or text variant). -/
structure Modulo1Resp where
  relatorio_descoberta : String
  deriving Repr, DecidableEq

/-- Success JSON of stage 2.  `bpmn_validation` and `aviso_bizagi` may be
absent from the JSON, hence `Option`. -/
structure Modulo2Resp where
  bpmn_xml_as_is : String
  bpmn_validation : Option String
  aviso_bizagi : Option String
  deriving Repr, DecidableEq

/-- Success JSON of stage 3a. -/
structure Modulo3aResp where
  consultoria : String
  deriving Repr, DecidableEq

/-- Success JSON of stage 3b. -/
structure Modulo3bResp where
  bpmn_xml_to_be : String
  bpmn_validation : Option String
  aviso_bizagi : Option String
  deriving Repr, DecidableEq

/-- Success JSON of stage 4. -/
structure Modulo4Resp where
  pop_texto : String
  deriving Repr, DecidableEq

/-- Request body of `/api/modulo2`, exactly the fields the
`JSON.stringify` literal names. -/
structure Modulo2Req where
  relatorio_descoberta : String
  deriving Repr, DecidableEq

/-- Request body of `/api/modulo3a`. -/
structure Modulo3aReq where
  relatorio_descoberta : String
  bpmn_xml_as_is : String
  deriving Repr, DecidableEq

/-- Request body of `/api/modulo3b`. -/
structure Modulo3bReq where
  relatorio_descoberta : String
  consultoria : String
  propostas_aprovadas : String
  deriving Repr, DecidableEq

/-- Request body of `/api/modulo4`. -/
structure Modulo4Req where
  bpmn_xml_to_be : String
  relatorio_descoberta : String
  deriving Repr, DecidableEq

/-- Request `handleModulo2` sends, built from the session data in scope. -/
def modulo2Request (d : SessionData) : Modulo2Req :=
  { relatorio_descoberta := d.relatorio_descoberta }

/-- Request `handleModulo3a` sends. -/
def modulo3aRequest (d : SessionData) : Modulo3aReq :=
  { relatorio_descoberta := d.relatorio_descoberta
    bpmn_xml_as_is := d.bpmn_xml_as_is }

/-- Request `handleModulo3b` sends: `relatorio_descoberta` and
`consultoria` come from the session data in scope, `propostas_aprovadas`
from the handler argument. -/
def modulo3bRequest (d : SessionData) (propostas : String) : Modulo3bReq :=
  { relatorio_descoberta := d.relatorio_descoberta
    consultoria := d.consultoria
    propostas_aprovadas := propostas }

/-- Request `handleModulo4` sends. -/
def modulo4Request (d : SessionData) : Modulo4Req :=
  { bpmn_xml_to_be := d.bpmn_xml_to_be
    relatorio_descoberta := d.relatorio_descoberta }

/-- Synchronous prefix of `handleUpload` (audio variant), up to the
`await fetch`: `setView(modulo1)` and clear the error. -/
def startUploadAudio (s : AppState) : AppState :=
  { s with view := View.modulo1, error := "" }

/-- Synchronous prefix of `handleTextUpload`, identical to the audio
variant: `setView(modulo1)` and clear the error. -/
def startUploadText (s : AppState) : AppState :=
  { s with view := View.modulo1, error := "" }

/-- Continuation of `handleUpload`/`handleTextUpload` once the fetch
resolves, applied to whatever the component state is at that moment.  On
success it merges `{ relatorio_descoberta }` and sets `view` to
`review1`; on failure it records the message (the `detail` field when
truthy, else the stage default) and sets `view` to `error`. -/
def finishModulo1 (s : AppState) (r : StageResult Modulo1Resp) : AppState :=
  match r with
  | .ok json =>
      { s with
        sessionData := updateSession s.sessionData
          { SessionUpdate.empty with relatorio_descoberta := some json.relatorio_descoberta }
        view := View.review1 }
  | .httpError detail => { s with error := jsOr detail "Erro no Módulo 1", view := View.error }
  | .networkError m => { s with error := m, view := View.error }

/-- Synchronous prefix of `handleModulo2`: `setView(modulo2)` and clear the
error. -/
def startModulo2 (s : AppState) : AppState :=
  { s with view := View.modulo2, error := "" }

/-- Continuation of `handleModulo2`: on success merge `{ bpmn_xml_as_is,
bpmn_validation_as_is, aviso_bizagi }` (the `aviso_bizagi` key is present
in the update even when the response omits the field) and enter
`review2`. -/
def finishModulo2 (s : AppState) (r : StageResult Modulo2Resp) : AppState :=
  match r with
  | .ok json =>
      { s with
        sessionData := updateSession s.sessionData
          { SessionUpdate.empty with
            bpmn_xml_as_is := some json.bpmn_xml_as_is
            bpmn_validation_as_is := some json.bpmn_validation
            aviso_bizagi := some json.aviso_bizagi }
        view := View.review2 }
  | .httpError detail => { s with error := jsOr detail "Erro no Módulo 2", view := View.error }
  | .networkError m => { s with error := m, view := View.error }

/-- Synchronous prefix of `handleModulo3a`. -/
def startModulo3a (s : AppState) : AppState :=
  { s with view := View.modulo3a, error := "" }

/-- Continuation of `handleModulo3a`: on success merge `{ consultoria }`
and enter `review3a`. -/
def finishModulo3a (s : AppState) (r : StageResult Modulo3aResp) : AppState :=
  match r with
  | .ok json =>
      { s with
        sessionData := updateSession s.sessionData
          { SessionUpdate.empty with consultoria := some json.consultoria }
        view := View.review3a }
  | .httpError detail => { s with error := jsOr detail "Erro no Módulo 3A", view := View.error }
  | .networkError m => { s with error := m, view := View.error }

/-- Synchronous prefix of `handleModulo3b`: set the view to
`modulo3b`, clear the error and merge the proposal text — the
proposal text is merged before the fetch is issued. -/
def startModulo3b (s : AppState) (propostas : String) : AppState :=
  { s with
    view := View.modulo3b
    error := ""
    sessionData := updateSession s.sessionData
      { SessionUpdate.empty with propostas_aprovadas := some propostas } }

/-- Continuation of `handleModulo3b`: on success merge `{ bpmn_xml_to_be,
bpmn_validation_to_be, aviso_bizagi }` (again the `aviso_bizagi` key is
always present in the update) and enter `review3b`. -/
def finishModulo3b (s : AppState) (r : StageResult Modulo3bResp) : AppState :=
  match r with
  | .ok json =>
      { s with
        sessionData := updateSession s.sessionData
          { SessionUpdate.empty with
            bpmn_xml_to_be := some json.bpmn_xml_to_be
            bpmn_validation_to_be := some json.bpmn_validation
            aviso_bizagi := some json.aviso_bizagi }
        view := View.review3b }
  | .httpError detail => { s with error := jsOr detail "Erro no Módulo 3B", view := View.error }
  | .networkError m => { s with error := m, view := View.error }

/-- Synchronous prefix of `handleModulo4`. -/
def startModulo4 (s : AppState) : AppState :=
  { s with view := View.modulo4, error := "" }

/-- Continuation of `handleModulo4`: on success merge `{ pop_texto }` and
enter `final`. -/
def finishModulo4 (s : AppState) (r : StageResult Modulo4Resp) : AppState :=
  match r with
  | .ok json =>
      { s with
        sessionData := updateSession s.sessionData
          { SessionUpdate.empty with pop_texto := some json.pop_texto }
        view := View.final }
  | .httpError detail => { s with error := jsOr detail "Erro no Módulo 4", view := View.error }
  | .networkError m => { s with error := m, view := View.error }

/-- The `handleReset` handler: set the view to `upload`, clear the
error and assign the initial session literal, from any state. -/
def handleReset (_s : AppState) : AppState :=
  { view := View.upload
    error := ""
    sessionData := initialSessionData }

/-- The JS `view.startsWith(pre)` test, as a character-list prefix
check. -/
def jsStartsWith (s pre : String) : Bool :=
  pre.toList.isPrefixOf s.toList

/-- The `getActiveStep` projection, mirroring the source string prefix
checks on the `view` value. -/
def getActiveStep (v : View) : Int :=
  if jsStartsWith v.str "modulo1" || v.str = "review1" then 0
  else if jsStartsWith v.str "modulo2" || v.str = "review2" then 1
  else if jsStartsWith v.str "modulo3" || v.str = "review3a" || v.str = "review3b" then 2
  else if jsStartsWith v.str "modulo4" || v.str = "final" then 3
  else -1

/-- The state sequence of the happy path: one submit (audio when `audio`
is true, text otherwise) followed by the four approvals, every stage call
succeeding, each handler recorded at its synchronous prefix and again when
its fetch resolves. -/
def successTrace (audio : Bool) (j1 : Modulo1Resp) (j2 : Modulo2Resp)
    (j3a : Modulo3aResp) (propostas : String) (j3b : Modulo3bResp)
    (j4 : Modulo4Resp) : List AppState :=
  let s0 := initialAppState
  let s1 := if audio then startUploadAudio s0 else startUploadText s0
  let s2 := finishModulo1 s1 (StageResult.ok j1)
  let s3 := startModulo2 s2
  let s4 := finishModulo2 s3 (StageResult.ok j2)
  let s5 := startModulo3a s4
  let s6 := finishModulo3a s5 (StageResult.ok j3a)
  let s7 := startModulo3b s6 propostas
  let s8 := finishModulo3b s7 (StageResult.ok j3b)
  let s9 := startModulo4 s8
  let s10 := finishModulo4 s9 (StageResult.ok j4)
  [s0, s1, s2, s3, s4, s5, s6, s7, s8, s9, s10]

/-- Claim C1: for every valid linear action sequence (one submit of audio
or text, then four approvals, each stage call succeeding, with a non-empty
proposal text at the 3a review), the engine visits exactly the states
upload (Idle), modulo1 (Running 1), review1, modulo2, review2, modulo3a,
review3a, modulo3b, review3b, modulo4, final in that order, with no state
skipped and no stage re-invoked. -/
theorem claim1_linear_success_path (audio : Bool) (j1 : Modulo1Resp)
    (j2 : Modulo2Resp) (j3a : Modulo3aResp) (propostas : String)
    (j3b : Modulo3bResp) (j4 : Modulo4Resp) (hp : propostas ≠ "") :
    (successTrace audio j1 j2 j3a propostas j3b j4).map AppState.view =
      [View.upload, View.modulo1, View.review1, View.modulo2, View.review2,
       View.modulo3a, View.review3a, View.modulo3b, View.review3b,
       View.modulo4, View.final] := by
  cases audio <;> rfl

/-- Witness for C1 at a concrete run. -/
theorem claim1_witness :
    ("todas" : String) ≠ "" ∧
    (successTrace true ⟨"r"⟩ ⟨"x", none, some ""⟩ ⟨"c"⟩ "todas"
        ⟨"t", none, none⟩ ⟨"p"⟩).map AppState.view =
      [View.upload, View.modulo1, View.review1, View.modulo2, View.review2,
       View.modulo3a, View.review3a, View.modulo3b, View.review3b,
       View.modulo4, View.final] :=
  ⟨by decide, claim1_linear_success_path true ⟨"r"⟩ ⟨"x", none, some ""⟩ ⟨"c"⟩
    "todas" ⟨"t", none, none⟩ ⟨"p"⟩ (by decide)⟩

/-- Claim C2: for every stage in {1, 2, 3a, 3b, 4}, if the stage call
fails (HTTP error or thrown exception) the continuation moves the view to
the error state and leaves the session record exactly as it was when the
call resolved — for every stage the failure branch performs no merge, so
the record equals the record from which the call was issued. -/
theorem claim2_failure_preserves_record (s : AppState) (d : Option String)
    (m : String) :
    ((finishModulo1 s (StageResult.httpError d)).sessionData = s.sessionData ∧
      (finishModulo1 s (StageResult.httpError d)).view = View.error ∧
      (finishModulo1 s (StageResult.networkError m)).sessionData = s.sessionData ∧
      (finishModulo1 s (StageResult.networkError m)).view = View.error) ∧
    ((finishModulo2 s (StageResult.httpError d)).sessionData = s.sessionData ∧
      (finishModulo2 s (StageResult.httpError d)).view = View.error ∧
      (finishModulo2 s (StageResult.networkError m)).sessionData = s.sessionData ∧
      (finishModulo2 s (StageResult.networkError m)).view = View.error) ∧
    ((finishModulo3a s (StageResult.httpError d)).sessionData = s.sessionData ∧
      (finishModulo3a s (StageResult.httpError d)).view = View.error ∧
      (finishModulo3a s (StageResult.networkError m)).sessionData = s.sessionData ∧
      (finishModulo3a s (StageResult.networkError m)).view = View.error) ∧
    ((finishModulo3b s (StageResult.httpError d)).sessionData = s.sessionData ∧
      (finishModulo3b s (StageResult.httpError d)).view = View.error ∧
      (finishModulo3b s (StageResult.networkError m)).sessionData = s.sessionData ∧
      (finishModulo3b s (StageResult.networkError m)).view = View.error) ∧
    ((finishModulo4 s (StageResult.httpError d)).sessionData = s.sessionData ∧
      (finishModulo4 s (StageResult.httpError d)).view = View.error ∧
      (finishModulo4 s (StageResult.networkError m)).sessionData = s.sessionData ∧
      (finishModulo4 s (StageResult.networkError m)).view = View.error) :=
  ⟨⟨rfl, rfl, rfl, rfl⟩, ⟨rfl, rfl, rfl, rfl⟩, ⟨rfl, rfl, rfl, rfl⟩,
    ⟨rfl, rfl, rfl, rfl⟩, ⟨rfl, rfl, rfl, rfl⟩⟩

/-- Claim C3: submitting a non-empty proposal text `p` at the 3a review
merges `propostas_aprovadas = p` into the session record before the stage
3b call resolves; the stage 3b request carries the accumulated discovery
report and consulting narrative together with `propostas_aprovadas = p`;
and after a failed stage 3b call the merged field still equals `p`. -/
theorem claim3_proposals_survive_failure (s : AppState) (p : String)
    (hp : p ≠ "") :
    (startModulo3b s p).sessionData.propostas_aprovadas = p ∧
    (modulo3bRequest s.sessionData p).relatorio_descoberta =
      s.sessionData.relatorio_descoberta ∧
    (modulo3bRequest s.sessionData p).consultoria = s.sessionData.consultoria ∧
    (modulo3bRequest s.sessionData p).propostas_aprovadas = p ∧
    (∀ d, (finishModulo3b (startModulo3b s p)
        (StageResult.httpError d)).sessionData.propostas_aprovadas = p) ∧
    (∀ m, (finishModulo3b (startModulo3b s p)
        (StageResult.networkError m)).sessionData.propostas_aprovadas = p) :=
  ⟨rfl, rfl, rfl, rfl, fun _ => rfl, fun _ => rfl⟩

/-- Witness for C3 at a concrete state and proposal text. -/
theorem claim3_witness :
    ("aprovo 1 e 3" : String) ≠ "" ∧
    (startModulo3b initialAppState "aprovo 1 e 3").sessionData.propostas_aprovadas =
      "aprovo 1 e 3" ∧
    (finishModulo3b (startModulo3b initialAppState "aprovo 1 e 3")
      (StageResult.httpError (some "falhou"))).sessionData.propostas_aprovadas =
      "aprovo 1 e 3" :=
  ⟨by decide,
    (claim3_proposals_survive_failure initialAppState "aprovo 1 e 3" (by decide)).1,
    (claim3_proposals_survive_failure initialAppState "aprovo 1 e 3"
      (by decide)).2.2.2.2.1 (some "falhou")⟩

/-- Claim C4: the claim requires a stale in-flight response arriving after
a reset to be ignored, but the code has no generation or session tag: when
the fetch of a stage call issued before the reset resolves, its
continuation runs against the post-reset state, merges the stale payload
into the fresh session record and moves the view forward.  Concretely,
after a reset issued while the stage 1 call is in flight, the arrival of a
successful stage 1 response yields view `review1` and a non-empty
discovery report, not the post-reset state. -/
theorem claim4_stale_response_merged :
    handleReset (startUploadAudio initialAppState) = initialAppState ∧
    (finishModulo1 (handleReset (startUploadAudio initialAppState))
        (StageResult.ok ⟨"Relatorio antigo"⟩)).view = View.review1 ∧
    (finishModulo1 (handleReset (startUploadAudio initialAppState))
        (StageResult.ok ⟨"Relatorio antigo"⟩)).sessionData.relatorio_descoberta =
      "Relatorio antigo" ∧
    finishModulo1 (handleReset (startUploadAudio initialAppState))
        (StageResult.ok ⟨"Relatorio antigo"⟩) ≠
      handleReset (startUploadAudio initialAppState) := by
  refine ⟨rfl, rfl, rfl, fun h => ?_⟩
  exact absurd (congrArg AppState.view h) (by decide)

/-- Claim C5: merging a partial update wholesale-replaces exactly the
fields whose keys are present in the update and leaves every other field
of the record unchanged; in particular merging a discovery report after a
diagram leaves both fields set. -/
theorem claim5_merge_frame (r : SessionData) (u : SessionUpdate) :
    (u.relatorio_descoberta = none →
      (updateSession r u).relatorio_descoberta = r.relatorio_descoberta) ∧
    (∀ v, u.relatorio_descoberta = some v →
      (updateSession r u).relatorio_descoberta = v) ∧
    (u.bpmn_xml_as_is = none →
      (updateSession r u).bpmn_xml_as_is = r.bpmn_xml_as_is) ∧
    (∀ v, u.bpmn_xml_as_is = some v → (updateSession r u).bpmn_xml_as_is = v) ∧
    (u.bpmn_validation_as_is = none →
      (updateSession r u).bpmn_validation_as_is = r.bpmn_validation_as_is) ∧
    (∀ v, u.bpmn_validation_as_is = some v →
      (updateSession r u).bpmn_validation_as_is = v) ∧
    (u.consultoria = none → (updateSession r u).consultoria = r.consultoria) ∧
    (∀ v, u.consultoria = some v → (updateSession r u).consultoria = v) ∧
    (u.propostas_aprovadas = none →
      (updateSession r u).propostas_aprovadas = r.propostas_aprovadas) ∧
    (∀ v, u.propostas_aprovadas = some v →
      (updateSession r u).propostas_aprovadas = v) ∧
    (u.bpmn_xml_to_be = none →
      (updateSession r u).bpmn_xml_to_be = r.bpmn_xml_to_be) ∧
    (∀ v, u.bpmn_xml_to_be = some v → (updateSession r u).bpmn_xml_to_be = v) ∧
    (u.bpmn_validation_to_be = none →
      (updateSession r u).bpmn_validation_to_be = r.bpmn_validation_to_be) ∧
    (∀ v, u.bpmn_validation_to_be = some v →
      (updateSession r u).bpmn_validation_to_be = v) ∧
    (u.pop_texto = none → (updateSession r u).pop_texto = r.pop_texto) ∧
    (∀ v, u.pop_texto = some v → (updateSession r u).pop_texto = v) ∧
    (u.aviso_bizagi = none → (updateSession r u).aviso_bizagi = r.aviso_bizagi) ∧
    (∀ v, u.aviso_bizagi = some v → (updateSession r u).aviso_bizagi = v) ∧
    (updateSession
        (updateSession r { SessionUpdate.empty with bpmn_xml_as_is := some "Y" })
        { SessionUpdate.empty with relatorio_descoberta := some "X" }).relatorio_descoberta =
      "X" ∧
    (updateSession
        (updateSession r { SessionUpdate.empty with bpmn_xml_as_is := some "Y" })
        { SessionUpdate.empty with relatorio_descoberta := some "X" }).bpmn_xml_as_is =
      "Y" := by
  refine ⟨?_, ?_, ?_, ?_, ?_, ?_, ?_, ?_, ?_, ?_, ?_, ?_, ?_, ?_, ?_, ?_, ?_,
    ?_, rfl, rfl⟩ <;>
    first
      | (intro h; simp [updateSession, h])
      | (intro v h; simp [updateSession, h])

/-- Witness for C5: a concrete merge of a discovery-report update over a
record holding a diagram keeps the diagram and stores the report. -/
theorem claim5_witness :
    (updateSession
        (updateSession initialSessionData
          { SessionUpdate.empty with bpmn_xml_as_is := some "Y" })
        { SessionUpdate.empty with relatorio_descoberta := some "X" }).relatorio_descoberta =
      "X" ∧
    (updateSession
        (updateSession initialSessionData
          { SessionUpdate.empty with bpmn_xml_as_is := some "Y" })
        { SessionUpdate.empty with relatorio_descoberta := some "X" }).bpmn_xml_as_is =
      "Y" := by
  have h := claim5_merge_frame
    (updateSession initialSessionData
      { SessionUpdate.empty with bpmn_xml_as_is := some "Y" })
    { SessionUpdate.empty with relatorio_descoberta := some "X" }
  exact ⟨h.2.1 "X" rfl, h.2.2.1 rfl⟩

/-- Claim C6: resetting from any state yields the upload (Idle) view and
the canonical all-empty session record (every text field empty, both
validation fields absent), and no other action empties the record: every
synchronous handler prefix other than the 3b one leaves the record
untouched, the 3b prefix writes only the proposal field, and each
continuation writes only the fields of its own stage — no non-reset operation
ever assigns the record wholesale. -/
theorem claim6_reset_canonical (s : AppState) :
    handleReset s = initialAppState ∧
    initialSessionData.relatorio_descoberta = "" ∧
    initialSessionData.bpmn_xml_as_is = "" ∧
    initialSessionData.bpmn_validation_as_is = none ∧
    initialSessionData.consultoria = "" ∧
    initialSessionData.propostas_aprovadas = "" ∧
    initialSessionData.bpmn_xml_to_be = "" ∧
    initialSessionData.bpmn_validation_to_be = none ∧
    initialSessionData.pop_texto = "" ∧
    initialSessionData.aviso_bizagi = some "" ∧
    (startUploadAudio s).sessionData = s.sessionData ∧
    (startUploadText s).sessionData = s.sessionData ∧
    (startModulo2 s).sessionData = s.sessionData ∧
    (startModulo3a s).sessionData = s.sessionData ∧
    (startModulo4 s).sessionData = s.sessionData ∧
    (∀ p : String,
      (startModulo3b s p).sessionData.relatorio_descoberta =
        s.sessionData.relatorio_descoberta ∧
      (startModulo3b s p).sessionData.bpmn_xml_as_is = s.sessionData.bpmn_xml_as_is ∧
      (startModulo3b s p).sessionData.bpmn_validation_as_is =
        s.sessionData.bpmn_validation_as_is ∧
      (startModulo3b s p).sessionData.consultoria = s.sessionData.consultoria ∧
      (startModulo3b s p).sessionData.bpmn_xml_to_be = s.sessionData.bpmn_xml_to_be ∧
      (startModulo3b s p).sessionData.bpmn_validation_to_be =
        s.sessionData.bpmn_validation_to_be ∧
      (startModulo3b s p).sessionData.pop_texto = s.sessionData.pop_texto ∧
      (startModulo3b s p).sessionData.aviso_bizagi = s.sessionData.aviso_bizagi) ∧
    (∀ r : StageResult Modulo1Resp,
      (finishModulo1 s r).sessionData.bpmn_xml_as_is = s.sessionData.bpmn_xml_as_is ∧
      (finishModulo1 s r).sessionData.bpmn_validation_as_is =
        s.sessionData.bpmn_validation_as_is ∧
      (finishModulo1 s r).sessionData.consultoria = s.sessionData.consultoria ∧
      (finishModulo1 s r).sessionData.propostas_aprovadas =
        s.sessionData.propostas_aprovadas ∧
      (finishModulo1 s r).sessionData.bpmn_xml_to_be = s.sessionData.bpmn_xml_to_be ∧
      (finishModulo1 s r).sessionData.bpmn_validation_to_be =
        s.sessionData.bpmn_validation_to_be ∧
      (finishModulo1 s r).sessionData.pop_texto = s.sessionData.pop_texto ∧
      (finishModulo1 s r).sessionData.aviso_bizagi = s.sessionData.aviso_bizagi) ∧
    (∀ r : StageResult Modulo2Resp,
      (finishModulo2 s r).sessionData.relatorio_descoberta =
        s.sessionData.relatorio_descoberta ∧
      (finishModulo2 s r).sessionData.consultoria = s.sessionData.consultoria ∧
      (finishModulo2 s r).sessionData.propostas_aprovadas =
        s.sessionData.propostas_aprovadas ∧
      (finishModulo2 s r).sessionData.bpmn_xml_to_be = s.sessionData.bpmn_xml_to_be ∧
      (finishModulo2 s r).sessionData.bpmn_validation_to_be =
        s.sessionData.bpmn_validation_to_be ∧
      (finishModulo2 s r).sessionData.pop_texto = s.sessionData.pop_texto) ∧
    (∀ r : StageResult Modulo3aResp,
      (finishModulo3a s r).sessionData.relatorio_descoberta =
        s.sessionData.relatorio_descoberta ∧
      (finishModulo3a s r).sessionData.bpmn_xml_as_is = s.sessionData.bpmn_xml_as_is ∧
      (finishModulo3a s r).sessionData.bpmn_validation_as_is =
        s.sessionData.bpmn_validation_as_is ∧
      (finishModulo3a s r).sessionData.propostas_aprovadas =
        s.sessionData.propostas_aprovadas ∧
      (finishModulo3a s r).sessionData.bpmn_xml_to_be = s.sessionData.bpmn_xml_to_be ∧
      (finishModulo3a s r).sessionData.bpmn_validation_to_be =
        s.sessionData.bpmn_validation_to_be ∧
      (finishModulo3a s r).sessionData.pop_texto = s.sessionData.pop_texto ∧
      (finishModulo3a s r).sessionData.aviso_bizagi = s.sessionData.aviso_bizagi) ∧
    (∀ r : StageResult Modulo3bResp,
      (finishModulo3b s r).sessionData.relatorio_descoberta =
        s.sessionData.relatorio_descoberta ∧
      (finishModulo3b s r).sessionData.bpmn_xml_as_is = s.sessionData.bpmn_xml_as_is ∧
      (finishModulo3b s r).sessionData.bpmn_validation_as_is =
        s.sessionData.bpmn_validation_as_is ∧
      (finishModulo3b s r).sessionData.consultoria = s.sessionData.consultoria ∧
      (finishModulo3b s r).sessionData.propostas_aprovadas =
        s.sessionData.propostas_aprovadas ∧
      (finishModulo3b s r).sessionData.pop_texto = s.sessionData.pop_texto) ∧
    (∀ r : StageResult Modulo4Resp,
      (finishModulo4 s r).sessionData.relatorio_descoberta =
        s.sessionData.relatorio_descoberta ∧
      (finishModulo4 s r).sessionData.bpmn_xml_as_is = s.sessionData.bpmn_xml_as_is ∧
      (finishModulo4 s r).sessionData.bpmn_validation_as_is =
        s.sessionData.bpmn_validation_as_is ∧
      (finishModulo4 s r).sessionData.consultoria = s.sessionData.consultoria ∧
      (finishModulo4 s r).sessionData.propostas_aprovadas =
        s.sessionData.propostas_aprovadas ∧
      (finishModulo4 s r).sessionData.bpmn_xml_to_be = s.sessionData.bpmn_xml_to_be ∧
      (finishModulo4 s r).sessionData.bpmn_validation_to_be =
        s.sessionData.bpmn_validation_to_be ∧
      (finishModulo4 s r).sessionData.aviso_bizagi = s.sessionData.aviso_bizagi) :=
  ⟨rfl, rfl, rfl, rfl, rfl, rfl, rfl, rfl, rfl, rfl, rfl, rfl, rfl, rfl, rfl,
    fun _ => ⟨rfl, rfl, rfl, rfl, rfl, rfl, rfl, rfl⟩,
    fun r => by cases r <;> exact ⟨rfl, rfl, rfl, rfl, rfl, rfl, rfl, rfl⟩,
    fun r => by cases r <;> exact ⟨rfl, rfl, rfl, rfl, rfl, rfl⟩,
    fun r => by cases r <;> exact ⟨rfl, rfl, rfl, rfl, rfl, rfl, rfl, rfl⟩,
    fun r => by cases r <;> exact ⟨rfl, rfl, rfl, rfl, rfl, rfl⟩,
    fun r => by cases r <;> exact ⟨rfl, rfl, rfl, rfl, rfl, rfl, rfl, rfl⟩⟩

/-- Claim C7: each stage request carries exactly the slice the spec names
— stage 2 `{relatorio_descoberta}`, stage 3a `{relatorio_descoberta,
bpmn_xml_as_is}`, stage 4 `{bpmn_xml_to_be, relatorio_descoberta}` (the
request record types have no further fields) — and on the happy path those
slices are exactly the corresponding accumulated stage outputs. -/
theorem claim7_request_slices (audio : Bool) (j1 : Modulo1Resp)
    (j2 : Modulo2Resp) (j3a : Modulo3aResp) (propostas : String)
    (j3b : Modulo3bResp) (d : SessionData) :
    modulo2Request d = ⟨d.relatorio_descoberta⟩ ∧
    modulo3aRequest d = ⟨d.relatorio_descoberta, d.bpmn_xml_as_is⟩ ∧
    modulo4Request d = ⟨d.bpmn_xml_to_be, d.relatorio_descoberta⟩ ∧
    (let s2 := finishModulo1
        (if audio then startUploadAudio initialAppState
          else startUploadText initialAppState) (StageResult.ok j1)
     let s4 := finishModulo2 (startModulo2 s2) (StageResult.ok j2)
     let s6 := finishModulo3a (startModulo3a s4) (StageResult.ok j3a)
     let s8 := finishModulo3b (startModulo3b s6 propostas) (StageResult.ok j3b)
     modulo2Request s2.sessionData = ⟨j1.relatorio_descoberta⟩ ∧
     modulo3aRequest s4.sessionData =
       ⟨j1.relatorio_descoberta, j2.bpmn_xml_as_is⟩ ∧
     modulo4Request s8.sessionData =
       ⟨j3b.bpmn_xml_to_be, j1.relatorio_descoberta⟩) := by
  cases audio <;> exact ⟨rfl, rfl, rfl, rfl, rfl, rfl⟩

/-- Claim C8: on a non-success transport response the handlers enter the
error view carrying the response detail when it is a truthy (non-empty)
string, and otherwise the stage-specific default message; in the spec
example a stage 2 HTTP error with detail "audio ilegível" yields that
message with the AS-IS diagram field untouched. -/
theorem claim8_error_messages (s : AppState) (d : String) (hd : d ≠ "") :
    ((finishModulo1 s (StageResult.httpError (some d))).view = View.error ∧
      (finishModulo1 s (StageResult.httpError (some d))).error = d ∧
      (finishModulo1 s (StageResult.httpError none)).error = "Erro no Módulo 1" ∧
      (finishModulo1 s (StageResult.httpError (some ""))).error =
        "Erro no Módulo 1") ∧
    ((finishModulo2 s (StageResult.httpError (some d))).view = View.error ∧
      (finishModulo2 s (StageResult.httpError (some d))).error = d ∧
      (finishModulo2 s (StageResult.httpError none)).error = "Erro no Módulo 2") ∧
    ((finishModulo3a s (StageResult.httpError (some d))).view = View.error ∧
      (finishModulo3a s (StageResult.httpError (some d))).error = d ∧
      (finishModulo3a s (StageResult.httpError none)).error = "Erro no Módulo 3A") ∧
    ((finishModulo3b s (StageResult.httpError (some d))).view = View.error ∧
      (finishModulo3b s (StageResult.httpError (some d))).error = d ∧
      (finishModulo3b s (StageResult.httpError none)).error = "Erro no Módulo 3B") ∧
    ((finishModulo4 s (StageResult.httpError (some d))).view = View.error ∧
      (finishModulo4 s (StageResult.httpError (some d))).error = d ∧
      (finishModulo4 s (StageResult.httpError none)).error = "Erro no Módulo 4") ∧
    (finishModulo2 s (StageResult.httpError (some "audio ilegível"))).error =
      "audio ilegível" ∧
    (finishModulo2 s
        (StageResult.httpError (some "audio ilegível"))).sessionData.bpmn_xml_as_is =
      s.sessionData.bpmn_xml_as_is := by
  refine ⟨⟨rfl, ?_, rfl, rfl⟩, ⟨rfl, ?_, rfl⟩, ⟨rfl, ?_, rfl⟩, ⟨rfl, ?_, rfl⟩,
    ⟨rfl, ?_, rfl⟩, ?_, rfl⟩ <;>
    simp [finishModulo1, finishModulo2, finishModulo3a, finishModulo3b,
      finishModulo4, jsOr, hd]

/-- Witness for C8 at a concrete state and detail message. -/
theorem claim8_witness :
    ("audio ilegível" : String) ≠ "" ∧
    (finishModulo2 initialAppState
        (StageResult.httpError (some "audio ilegível"))).view = View.error ∧
    (finishModulo2 initialAppState
        (StageResult.httpError (some "audio ilegível"))).error = "audio ilegível" ∧
    (finishModulo2 initialAppState
        (StageResult.httpError (some "audio ilegível"))).sessionData.bpmn_xml_as_is =
      "" := by
  have h := claim8_error_messages initialAppState "audio ilegível" (by decide)
  exact ⟨by decide, h.2.1.1, h.2.1.2.1, h.2.2.2.2.2.2⟩

/-- Claim C9: the progress projection is a function of the view state
whose step index buckets the pipeline into four macro-steps — stage 1
states map to 0, stage 2 states to 1, the 3a and 3b states to 2, and the
stage 4 states (including the final view) to 3. -/
theorem claim9_step_buckets :
    getActiveStep View.modulo1 = 0 ∧ getActiveStep View.review1 = 0 ∧
    getActiveStep View.modulo2 = 1 ∧ getActiveStep View.review2 = 1 ∧
    getActiveStep View.modulo3a = 2 ∧ getActiveStep View.review3a = 2 ∧
    getActiveStep View.modulo3b = 2 ∧ getActiveStep View.review3b = 2 ∧
    getActiveStep View.modulo4 = 3 ∧ getActiveStep View.final = 3 := by
  decide

/-- Claim C10: every successful stage 2 or stage 3b completion overwrites
`aviso_bizagi` with exactly the value carried by the response — the update
object always contains the key — so a stage 3b success whose response
omits the notice clears a notice stored by stage 2 instead of leaving it
untouched. -/
theorem claim10_advisory_overwritten (s : AppState) (j2 : Modulo2Resp)
    (j3b : Modulo3bResp) :
    (finishModulo2 s (StageResult.ok j2)).sessionData.aviso_bizagi =
      j2.aviso_bizagi ∧
    (finishModulo3b s (StageResult.ok j3b)).sessionData.aviso_bizagi =
      j3b.aviso_bizagi ∧
    (finishModulo3b
        (finishModulo2 s (StageResult.ok ⟨"x", none, some "atencao"⟩))
        (StageResult.ok ⟨"y", none, none⟩)).sessionData.aviso_bizagi = none :=
  ⟨rfl, rfl, rfl⟩

end Ceproc
